import Mathlib

/-!
Shallow embedding of the error-alerts repository (src/Alerter.js) and proofs
about its occurrence-tracking, range-query, persistence and threshold logic.

JavaScript values that may be `undefined` or `NaN` are modelled as
`Option Int` (`none` = undefined/NaN); every JS comparison involving
`undefined`/`NaN` is false, which the js* helpers reproduce.
-/

namespace ErrorAlerts

/-- JS array indexing `ts[i]`: a negative or out-of-range index yields
`undefined` (modelled as `none`). -/
def jsGet (ts : List Int) (i : Int) : Option Int :=
  if i < 0 then none else ts[i.toNat]?

/-- JS comparison `a <= b` where `b` may be `undefined`: any relational
comparison with `undefined` is false. -/
def jsLEv (a : Int) (b : Option Int) : Bool :=
  match b with
  | some v => decide (a ≤ v)
  | none => false

/-- JS comparison `a > b` where `b` may be `undefined`. -/
def jsGTv (a : Int) (b : Option Int) : Bool :=
  match b with
  | some v => decide (v < a)
  | none => false

/-- The backward scan over duplicate values inside `_find_bound`
(src/Alerter.js lines 447-452): `while (timestamps[middle-1] === target) middle--`.
The JS index `middle` is nonnegative here (it was just used to read a defined
element), so it is carried as a `Nat`; at `middle = 0` the JS loop reads
`timestamps[-1]`, which is `undefined` and stops the loop. -/
def dup_scan (ts : List Int) (target : Int) : Nat → Nat
  | 0 => 0
  | m + 1 => if ts[m]? = some target then dup_scan ts target m else m + 1

/-- Body of `_find_bound` (src/Alerter.js lines 423-463), the recursive binary
search.  The source recursion terminates because `right - left` strictly
shrinks at every recursive call; the embedding makes this explicit with a fuel
argument that the top-level wrapper `find_bound` initialises large enough to
never be exhausted on any input (see the C4 development below).
`middle = Math.floor((right - left) / 2) + left` is floor division
(`Int.fdiv`).  When `timestamps[middle]` is `undefined` (possible only for the
empty array, where `left = 0`, `right = -1`, `middle = -1`), all three
comparisons against it are false and the JS function falls through, returning
`undefined` (`none`). -/
def find_bound_go (target : Int) (ts : List Int) : Nat → Int → Int → Option Int
  | 0, _, _ => none
  | fuel + 1, left, right =>
    if jsLEv target (jsGet ts 0) then some 0
    else if jsGTv target (jsGet ts ((ts.length : Int) - 1)) then some (ts.length : Int)
    else if left = right then some left
    else
      let middle := (right - left).fdiv 2 + left
      match jsGet ts middle with
      | some v =>
        if v = target then some ((dup_scan ts target middle.toNat : Nat) : Int)
        else if v < target then find_bound_go target ts fuel (middle + 1) right
        else find_bound_go target ts fuel left middle
      | none => none

/-- Wrapper `_find_bound(target, timestamps)` with the default bounds
`left = 0`, `right = timestamps.length - 1` (src/Alerter.js lines 425-431). -/
def find_bound (target : Int) (ts : List Int) : Option Int :=
  find_bound_go target ts (ts.length + 1) 0 ((ts.length : Int) - 1)

/-- Operation `_find_range` (src/Alerter.js lines 473-493).  The logical sequence is
`saved.concat(queued)`.  Each bound is guarded by JS truthiness
(`if (range.from)` / `if (range.to)`), so a bound equal to `0` behaves as
absent; `range.from` is modelled as always supplied because every caller in
the program passes it.  NOTE: line 486 of the source computes the upper index
as `this._find_bound(range.from, timestamps)` — it passes `range.from`, not
`range.to`. -/
def find_range (saved queued : List Int) (rfrom : Int) (rto : Option Int) :
    Option Int × Option Int :=
  let ts := saved ++ queued
  let res_from : Option Int :=
    if rfrom = 0 then some 0 else find_bound rfrom ts
  let res_to : Option Int :=
    match rto with
    | none => some ((ts.length : Int) - 1)
    | some t =>
      if t = 0 then some ((ts.length : Int) - 1)
      else
        match find_bound rfrom ts with
        | some i => if i = (ts.length : Int) then some (i - 1) else some i
        | none => none
  (res_from, res_to)

/-- JS subtraction where either operand may be `undefined` (`undefined - x`
is `NaN`, which again behaves as `none`). -/
def jsSub : Option Int → Option Int → Option Int
  | some a, some b => some (a - b)
  | _, _ => none

/-- JS `x + 1` on a possibly-`NaN` value. -/
def jsAdd1 : Option Int → Option Int
  | some a => some (a + 1)
  | none => none

/-- JS comparison `a >= b` where either side may be `undefined`/`NaN`:
false unless both are numbers. -/
def jsGE : Option Int → Option Int → Bool
  | some a, some b => decide (b ≤ a)
  | _, _ => false

/-- One timespan entry of `_blank_settings` (src/Alerter.js lines 312-317):
`{enabled, threshold, cooldown, last_alert}`, the last three `undefined`
until configured. -/
structure WindowConfig where
  enabled : Bool
  threshold : Option Int
  cooldown : Option Int
  last_alert : Option Int
deriving DecidableEq

/-- The cooldown guard of `_check` (src/Alerter.js lines 356-362):
`check.last_alert && check.cooldown !== undefined` (JS truthiness: a
`last_alert` of `undefined`, `null` or `0` fails the guard), and then
`check.last_alert >= moment(current_time).subtract(cooldown minutes)`,
i.e. `last_alert >= current_time - cooldown * 60000`. -/
def cooldown_active (c : WindowConfig) (current_time : Int) : Bool :=
  match c.last_alert, c.cooldown with
  | some la, some cd => decide (la ≠ 0) && decide (current_time - cd * 60000 ≤ la)
  | _, _ => false

/-- The threshold part of `_check` for one window (src/Alerter.js lines
364-375): count the occurrences in `{from: current_time - window}` (open
upper bound) and fire when `error_count >= check.threshold`; firing records
`last_alert = current_time`.  `range.to - range.from + 1` is NaN-propagating
JS arithmetic and `>=` against an `undefined` threshold is false.  The
returned Bool records whether `_alert` (and the `act` callback) fired. -/
def threshold_step (c : WindowConfig) (window current_time : Int)
    (saved queued : List Int) : Bool × WindowConfig :=
  let r := find_range saved queued (current_time - window) none
  let error_count := jsAdd1 (jsSub r.2 r.1)
  if jsGE error_count c.threshold then
    (true, { c with last_alert := some current_time })
  else
    (false, c)

/-- Operation `_check` restricted to a single window key (src/Alerter.js lines 347-376);
the source iterates this body independently over `minute`/`hour`/`day` with
`window` = 60000, 3600000 and 86400000.  `continue` branches return the
window unchanged with no alert. -/
def check_window (c : WindowConfig) (window current_time : Int)
    (saved queued : List Int) : Bool × WindowConfig :=
  if !c.enabled then (false, c)
  else if cooldown_active c current_time then (false, c)
  else threshold_step c window current_time saved queued

/-- Per-event-type settings, as produced by `_blank_settings`
(src/Alerter.js lines 305-331).  `log` is JS `false` until configured
(modelled `none`); `stream` is `undefined` until `start` opens it (modelled
by the Bool `stream_open`); the `act` callback carries no state relevant to
the claims and is omitted. -/
structure EventSettings where
  watch : Bool
  log : Option String
  stream_open : Bool
  draining : Bool
  minute : WindowConfig
  hour : WindowConfig
  day : WindowConfig
deriving DecidableEq

/-- JS truthiness of the `log` field: `false`/`undefined` and the empty
string are falsy, any other string is truthy. -/
def jsTruthyLog : Option String → Bool
  | none => false
  | some s => decide (s ≠ "")

/-- Defaults `_blank_settings()` (src/Alerter.js lines 305-331): watch on, no log,
no stream, not draining, all three windows disabled and unconfigured. -/
def blank_settings : EventSettings :=
  { watch := true
    log := none
    stream_open := false
    draining := false
    minute := { enabled := false, threshold := none, cooldown := none, last_alert := none }
    hour := { enabled := false, threshold := none, cooldown := none, last_alert := none }
    day := { enabled := false, threshold := none, cooldown := none, last_alert := none } }

/-- Operation `_write(error_type, data)` (src/Alerter.js lines 598-626).  The stream's
acceptance of the bytes is external: `buffer_full` models `stream.write`
returning false (buffer filled).  Returns the JS boolean result, the updated
settings, and the payload written to the stream (if any); an array payload is
newline-joined with a trailing newline. -/
def write (s : EventSettings) (data : List Int) (buffer_full : Bool) :
    Bool × EventSettings × Option String :=
  if !jsTruthyLog s.log then (true, s, none)
  else if s.draining || !s.stream_open then (false, s, none)
  else
    let payload := String.intercalate "\n" (data.map toString) ++ "\n"
    (true, (if buffer_full then { s with draining := true } else s), some payload)

/-- Operation `_flush_queued` restricted to one event type (src/Alerter.js lines
498-507): attempt `_write` on the queued timestamps; on success append them
to the committed timestamps and delete the queue (subsequent reads of the
deleted key see `[]`); on failure leave both segments alone. -/
def flush_queued_one (s : EventSettings) (committed queued : List Int)
    (buffer_full : Bool) : EventSettings × List Int × List Int :=
  match write s queued buffer_full with
  | (true, s', _) => (s', committed ++ queued, [])
  | (false, s', _) => (s', committed, queued)

/-- The recovery parse-and-filter of `generate_readFile_callback`
(src/Alerter.js lines 179-185): `data.split("\n").map(parseInt)` yields one
entry per line, `NaN` (modelled `none`) for a line that does not parse as an
integer — e.g. the empty trailing line; `filter(t => t >= one_day_ago)`
keeps exactly the parsed values that are `>= one_day_ago` (`NaN >= x` is
false, so unparseable lines are dropped). -/
def recovered_timestamps (parsed : List (Option Int)) (one_day_ago : Int) :
    List Int :=
  parsed.filterMap (fun t? =>
    match t? with
    | some t => if one_day_ago ≤ t then some t else none
    | none => none)

/-- The queue merge of recovery (src/Alerter.js line 197):
`_queued[key] = timestamps.concat(_queued[key] || [])` — the surviving
historical timestamps go ahead of anything queued since process start. -/
def load_log_queued (parsed : List (Option Int)) (one_day_ago : Int)
    (queued : List Int) : List Int :=
  recovered_timestamps parsed one_day_ago ++ queued

/-- The value passed to `tell` (src/Alerter.js lines 274-294).  JS shapes:
an `Error` instance (truthy, `instanceof Error`, constructor name attached),
a string, `null`/`undefined`, a number, or a plain non-Error object. -/
inductive TellInput where
  | errObj (ctorName : String)
  | str (s : String)
  | nullv
  | num (n : Int)
  | obj
deriving DecidableEq

/-- The input guard of `tell` (src/Alerter.js line 276):
`if (!error || !(error instanceof Error)) return;` — only `Error` instances
pass; strings, `null`, numbers and plain objects are all silently dropped. -/
def tell_accepts : TellInput → Bool
  | .errObj _ => true
  | _ => false

/-- Operation `_key` (src/Alerter.js lines 509-518): a string is used verbatim, an
`Error` instance is keyed by its constructor name, anything else falls back
to the DEFAULT key. -/
def key_of : TellInput → String
  | .errObj n => n
  | .str s => s
  | _ => "_default"

/-- The specific-error branch of `tell` (src/Alerter.js lines 290-293):
`if (this._settings[key].watch) ...` reads `.watch` off the settings map
entry with no existence check, so a key that was never configured
(`settings key = none`, i.e. `undefined` in JS) throws a TypeError. -/
def tell_branch (settings : String → Option EventSettings) (key : String) :
    Except String Bool :=
  match settings key with
  | none => Except.error "TypeError: cannot read property watch of undefined"
  | some s => Except.ok s.watch

/-- The settings map as built by the constructor (src/Alerter.js lines
56-59): only the `_all` and `_default` keys exist, both blank. -/
def initial_settings : String → Option EventSettings := fun k =>
  if k = "_all" ∨ k = "_default" then some blank_settings else none

/-- The observable outcome of entering `start` (src/Alerter.js lines
112-124).  On a repeat call the guard body is
`callback(new AlerterErrror(...)); return;` — but the identifier
`AlerterErrror` (three r's) is bound nowhere in the module (the class is
`AlerterError`), so evaluating the `new` expression throws a ReferenceError
before the callback is ever invoked.  A first call proceeds into recovery
after setting `_started = true`. -/
inductive StartOutcome where
  | threwReference (ident : String)
  | callbackError (msg : String)
  | proceeded
deriving DecidableEq

/-- The entry guard of `start`: returns the outcome together with the
`_started` flag after the call. -/
def start_entry (started : Bool) : StartOutcome × Bool :=
  if started then (StartOutcome.threwReference "AlerterErrror", started)
  else (StartOutcome.proceeded, true)

/-- A window sitting exactly at its cooldown boundary: cooldown one minute,
last alert at time 1000, threshold 1. -/
def boundary_config : WindowConfig :=
  { enabled := true, threshold := some 1, cooldown := some 1, last_alert := some 1000 }

/-! Helper lemmas -/

/-- Reading `jsGet` at a natural index is plain optional indexing. -/
theorem jsGet_natCast (ts : List Int) (n : Nat) : jsGet ts (n : Int) = ts[n]? := by
  unfold jsGet
  rw [if_neg (by omega), Int.toNat_ofNat]

/-- Elements of a non-decreasing list compare according to their indices. -/
theorem sorted_le_of_getElem? {ts : List Int}
    (hs : List.Pairwise (fun a b => a ≤ b) ts) {i j : Nat} {vi vj : Int}
    (hij : i ≤ j) (hi : ts[i]? = some vi) (hj : ts[j]? = some vj) : vi ≤ vj := by
  obtain ⟨hi', rfl⟩ := List.getElem?_eq_some.mp hi
  obtain ⟨hj', rfl⟩ := List.getElem?_eq_some.mp hj
  rcases Nat.eq_or_lt_of_le hij with rfl | h
  · exact le_refl _
  · exact List.pairwise_iff_getElem.mp hs i j hi' hj' h

theorem dup_scan_le (ts : List Int) (target : Int) (m : Nat) :
    dup_scan ts target m ≤ m := by
  induction m with
  | zero => exact Nat.le_refl _
  | succ k ih =>
    by_cases hk : ts[k]? = some target
    · simp only [dup_scan, if_pos hk]
      exact Nat.le_trans ih (Nat.le_succ k)
    · simp only [dup_scan, if_neg hk]
      exact Nat.le_refl _

theorem dup_scan_hits (ts : List Int) (target : Int) :
    ∀ m, ts[m]? = some target → ts[dup_scan ts target m]? = some target := by
  intro m
  induction m with
  | zero => intro h; exact h
  | succ k ih =>
    intro h
    by_cases hk : ts[k]? = some target
    · simpa only [dup_scan, if_pos hk] using ih hk
    · simpa only [dup_scan, if_neg hk] using h

theorem dup_scan_first (ts : List Int) (target : Int) :
    ∀ m, dup_scan ts target m = 0 ∨ ts[dup_scan ts target m - 1]? ≠ some target := by
  intro m
  induction m with
  | zero => exact Or.inl rfl
  | succ k ih =>
    by_cases hk : ts[k]? = some target
    · simpa only [dup_scan, if_pos hk] using ih
    · right
      simpa only [dup_scan, if_neg hk, Nat.add_sub_cancel] using hk

/-- Everything strictly before the index produced by the duplicate scan is
strictly below the target. -/
theorem dup_scan_lb {ts : List Int} {target : Int} {m : Nat}
    (hs : List.Pairwise (fun a b => a ≤ b) ts) (hm : ts[m]? = some target) :
    ∀ j v, ts[j]? = some v → j < dup_scan ts target m → v < target := by
  intro j v hj hlt
  have hr : ts[dup_scan ts target m]? = some target := dup_scan_hits ts target m hm
  have hne : ts[dup_scan ts target m - 1]? ≠ some target := by
    rcases dup_scan_first ts target m with h0 | h
    · omega
    · exact h
  have hrlen : dup_scan ts target m < ts.length := (List.getElem?_eq_some.mp hr).1
  have hprevlen : dup_scan ts target m - 1 < ts.length := by omega
  obtain ⟨w, hw⟩ : ∃ w, ts[dup_scan ts target m - 1]? = some w :=
    ⟨_, List.getElem?_eq_getElem hprevlen⟩
  have hwle : w ≤ target := sorted_le_of_getElem? hs (by omega) hw hr
  have hwlt : w < target := by
    rcases lt_or_eq_of_le hwle with h | h
    · exact h
    · exact absurd (h ▸ hw) hne
  exact lt_of_le_of_lt (sorted_le_of_getElem? hs (by omega) hj hw) hwlt

/-- Invariant proof for the binary-search recursion: if the answer is pinned
between `L` and `R` and the fuel dominates `R - L`, `find_bound_go` returns
the stable lower-bound index. -/
theorem find_bound_go_spec (target : Int) (ts : List Int)
    (hs : List.Pairwise (fun a b => a ≤ b) ts) :
    ∀ (fuel : Nat) (L R : Nat), L ≤ R → R < ts.length → R - L < fuel →
    (∀ j v, ts[j]? = some v → j < L → v < target) →
    (∀ v, ts[R]? = some v → target ≤ v) →
    ∃ i : Nat, find_bound_go target ts fuel (L : Int) (R : Int) = some (i : Int) ∧
      i ≤ ts.length ∧
      (∀ j v, ts[j]? = some v → j < i → v < target) ∧
      (∀ j v, ts[j]? = some v → i ≤ j → target ≤ v) := by
  intro fuel
  induction fuel with
  | zero => intro L R hLR hR hfuel _ _; omega
  | succ f ih =>
    intro L R hLR hR hfuel hlo hhi
    have hlen : 0 < ts.length := Nat.lt_of_le_of_lt (Nat.zero_le R) hR
    obtain ⟨v0, hv0⟩ : ∃ v, ts[0]? = some v := ⟨_, List.getElem?_eq_getElem hlen⟩
    have hlastlen : ts.length - 1 < ts.length := by omega
    obtain ⟨vl, hvl⟩ : ∃ v, ts[ts.length - 1]? = some v :=
      ⟨_, List.getElem?_eq_getElem hlastlen⟩
    obtain ⟨vR, hvR⟩ : ∃ v, ts[R]? = some v := ⟨_, List.getElem?_eq_getElem hR⟩
    have hg0 : jsGet ts 0 = some v0 := by
      rw [show (0 : Int) = ((0 : Nat) : Int) from rfl, jsGet_natCast]
      exact hv0
    have hgl : jsGet ts ((ts.length : Int) - 1) = some vl := by
      rw [show ((ts.length : Int) - 1) = ((ts.length - 1 : Nat) : Int) from by omega,
        jsGet_natCast]
      exact hvl
    have htargle : target ≤ vl :=
      le_trans (hhi vR hvR) (sorted_le_of_getElem? hs (by omega) hvR hvl)
    have hguard2 : jsGTv target (jsGet ts ((ts.length : Int) - 1)) = false := by
      rw [hgl]
      simp only [jsGTv, decide_eq_false_iff_not, not_lt]
      exact htargle
    by_cases hA : target ≤ v0
    · refine ⟨0, ?_, Nat.zero_le _, ?_, ?_⟩
      · unfold find_bound_go
        rw [hg0]
        simp [jsLEv, hA]
      · intro j v _ hj
        omega
      · intro j v hj _
        exact le_trans hA (sorted_le_of_getElem? hs (Nat.zero_le j) hv0 hj)
    · have hguard1 : jsLEv target (jsGet ts 0) = false := by
        rw [hg0]
        simp only [jsLEv, decide_eq_false_iff_not]
        exact hA
      by_cases hLReq : L = R
      · subst hLReq
        refine ⟨L, ?_, le_of_lt hR, hlo, ?_⟩
        · unfold find_bound_go
          simp [hguard1, hguard2]
        · intro j v hj hLj
          exact le_trans (hhi vR hvR) (sorted_le_of_getElem? hs hLj hvR hj)
      · have hLRlt : L < R := lt_of_le_of_ne hLR hLReq
        have hneI : ¬((L : Int) = (R : Int)) := by omega
        have hfdiv : ((R - L : Nat) : Int).fdiv 2 = (((R - L) / 2 : Nat) : Int) := by
          have h := (Int.ofNat_fdiv (R - L) 2).symm
          simpa using h
        have hmidcast : ((R : Int) - (L : Int)).fdiv 2 + (L : Int) =
            (((R - L) / 2 + L : Nat) : Int) := by
          rw [show ((R : Int) - (L : Int)) = ((R - L : Nat) : Int) from by omega, hfdiv]
          push_cast
          ring
        have hMge : L ≤ (R - L) / 2 + L := Nat.le_add_left L _
        have hMlt : (R - L) / 2 + L < R := by omega
        have hMlen : (R - L) / 2 + L < ts.length := Nat.lt_trans hMlt hR
        obtain ⟨vM, hvM⟩ : ∃ v, ts[(R - L) / 2 + L]? = some v :=
          ⟨_, List.getElem?_eq_getElem hMlen⟩
        have heval : find_bound_go target ts (f + 1) (L : Int) (R : Int) =
            (if vM = target then
              some ((dup_scan ts target ((R - L) / 2 + L) : Nat) : Int)
            else if vM < target then
              find_bound_go target ts f ((((R - L) / 2 + L : Nat) : Int) + 1) (R : Int)
            else find_bound_go target ts f (L : Int) (((R - L) / 2 + L : Nat) : Int)) := by
          conv_lhs => unfold find_bound_go
          rw [hguard1, hguard2]
          simp only [Bool.false_eq_true, if_false]
          rw [if_neg hneI, hmidcast, jsGet_natCast, hvM, Int.toNat_ofNat]
        by_cases hEq : vM = target
        · subst hEq
          refine ⟨dup_scan ts vM ((R - L) / 2 + L), ?_,
            le_trans (dup_scan_le ts vM _) (le_of_lt hMlen), ?_, ?_⟩
          · rw [heval, if_pos rfl]
          · exact dup_scan_lb hs hvM
          · intro j v hj hij
            exact sorted_le_of_getElem? hs hij (dup_scan_hits ts vM _ hvM) hj
        · by_cases hLt : vM < target
          · obtain ⟨i, hi_eval, hi_len, hi_lo, hi_hi⟩ :=
              ih ((R - L) / 2 + L + 1) R (by omega) hR (by omega)
                (fun j v hj hjM => by
                  exact lt_of_le_of_lt
                    (sorted_le_of_getElem? hs (by omega) hj hvM) hLt)
                hhi
            refine ⟨i, ?_, hi_len, hi_lo, hi_hi⟩
            rw [heval, if_neg hEq, if_pos hLt]
            rw [show ((((R - L) / 2 + L : Nat) : Int) + 1) =
              (((R - L) / 2 + L + 1 : Nat) : Int) from by push_cast; ring]
            exact hi_eval
          · have hGt : target < vM := by
              rcases lt_or_eq_of_le (not_lt.mp hLt) with h | h
              · exact h
              · exact absurd h.symm hEq
            obtain ⟨i, hi_eval, hi_len, hi_lo, hi_hi⟩ :=
              ih L ((R - L) / 2 + L) hMge hMlen (by omega) hlo
                (fun v hv => by
                  rw [hvM] at hv
                  injection hv with hv
                  omega)
            refine ⟨i, ?_, hi_len, hi_lo, hi_hi⟩
            rw [heval, if_neg hEq, if_neg hLt]
            exact hi_eval

/-- Comparison `jsGE` against an `undefined` right operand is always false. -/
theorem jsGE_none_right (x : Option Int) : jsGE x none = false := by
  cases x <;> rfl

/-- Operation `_find_range` only observes the concatenation `saved ++ queued`. -/
theorem find_range_eq_of_append_eq {s₁ q₁ s₂ q₂ : List Int}
    (h : s₁ ++ q₁ = s₂ ++ q₂) (rfrom : Int) (rto : Option Int) :
    find_range s₁ q₁ rfrom rto = find_range s₂ q₂ rfrom rto := by
  unfold find_range
  rw [h]

/-! Claim theorems -/

/-- C4 (amended): for every *nonempty* non-decreasing sequence S and target T,
`_find_bound(T, S)` returns the index of the first element ≥ T (the first of a
run of duplicates), or S.length if every element is < T.  For the empty
sequence the source does not return 0: every comparison against
`timestamps[-1]` (`undefined`) is false and the function falls through,
returning `undefined` (`none`). -/
theorem find_bound_lower_bound :
    (∀ (target : Int) (ts : List Int), List.Pairwise (fun a b => a ≤ b) ts →
      ts ≠ [] →
      ∃ i : Nat, find_bound target ts = some (i : Int) ∧ i ≤ ts.length ∧
        (∀ j v, ts[j]? = some v → j < i → v < target) ∧
        (∀ j v, ts[j]? = some v → i ≤ j → target ≤ v)) ∧
    (∀ target : Int, find_bound target [] = none) := by
  constructor
  · intro target ts hs hne
    have hlen : 0 < ts.length := List.length_pos.mpr hne
    have hlastlen : ts.length - 1 < ts.length := by omega
    obtain ⟨vl, hvl⟩ : ∃ v, ts[ts.length - 1]? = some v :=
      ⟨_, List.getElem?_eq_getElem hlastlen⟩
    by_cases hcase : target ≤ vl
    · have h := find_bound_go_spec target ts hs (ts.length + 1) 0 (ts.length - 1)
        (Nat.zero_le _) hlastlen (by omega)
        (fun j v _ hj => by omega)
        (fun v hv => by rw [hvl] at hv; injection hv with hv; omega)
      rw [find_bound,
        show ((ts.length : Int) - 1) = ((ts.length - 1 : Nat) : Int) from by omega,
        show (0 : Int) = ((0 : Nat) : Int) from rfl]
      exact h
    · push_neg at hcase
      refine ⟨ts.length, ?_, le_refl _, ?_, ?_⟩
      · obtain ⟨v0, hv0⟩ : ∃ v, ts[0]? = some v := ⟨_, List.getElem?_eq_getElem hlen⟩
        have hg0 : jsGet ts 0 = some v0 := by
          rw [show (0 : Int) = ((0 : Nat) : Int) from rfl, jsGet_natCast]
          exact hv0
        have hgl : jsGet ts ((ts.length : Int) - 1) = some vl := by
          rw [show ((ts.length : Int) - 1) = ((ts.length - 1 : Nat) : Int) from by omega,
            jsGet_natCast]
          exact hvl
        have hguard1 : jsLEv target (jsGet ts 0) = false := by
          rw [hg0]
          simp only [jsLEv, decide_eq_false_iff_not, not_le]
          exact lt_of_le_of_lt (sorted_le_of_getElem? hs (Nat.zero_le _) hv0 hvl) hcase
        have hguard2 : jsGTv target (jsGet ts ((ts.length : Int) - 1)) = true := by
          rw [hgl]
          simp only [jsGTv, decide_eq_true_eq]
          exact hcase
        rw [find_bound]
        conv_lhs => unfold find_bound_go
        rw [hguard1, hguard2]
        simp
      · intro j v hj _
        have hjlen : j < ts.length := (List.getElem?_eq_some.mp hj).1
        exact lt_of_le_of_lt (sorted_le_of_getElem? hs (by omega) hj hvl) hcase
      · intro j v hj hij
        have hjlen : j < ts.length := (List.getElem?_eq_some.mp hj).1
        omega
  · intro target
    rfl

/-- C4 counterexample: the claim says `find_lower_bound` returns 0 for the
empty sequence; the code returns `undefined`, which is not 0. -/
theorem find_bound_empty_counterexample :
    find_bound 5 ([] : List Int) = none ∧ find_bound 5 ([] : List Int) ≠ some 0 := by
  refine ⟨rfl, ?_⟩
  decide

/-- C4 witness: the theorem instantiated on the concrete sorted list
`[1, 2, 2, 3]` with target 2 (a duplicate run whose first index is 1). -/
theorem find_bound_lower_bound_witness :
    ∃ i : Nat, find_bound 2 [1, 2, 2, 3] = some (i : Int) ∧
      i ≤ ([1, 2, 2, 3] : List Int).length ∧
      (∀ j v, ([1, 2, 2, 3] : List Int)[j]? = some v → j < i → v < 2) ∧
      (∀ j v, ([1, 2, 2, 3] : List Int)[j]? = some v → i ≤ j → 2 ≤ v) :=
  find_bound_lower_bound.1 2 [1, 2, 2, 3] (by decide) (by decide)

/-- C1: the input guard of `tell` drops strings (`!(error instanceof Error)`
is true for a string), even though `_key` would have used the string verbatim
as the key and the README documents string ingestion; `Error` instances are
accepted and keyed by constructor name; null, numbers and plain objects are
silently ignored. -/
theorem tell_rejects_string_input :
    tell_accepts (TellInput.str "MongoError") = false ∧
    key_of (TellInput.str "MongoError") = "MongoError" ∧
    tell_accepts (TellInput.errObj "RangeError") = true ∧
    key_of (TellInput.errObj "RangeError") = "RangeError" ∧
    tell_accepts TellInput.nullv = false ∧
    tell_accepts (TellInput.num 7) = false ∧
    tell_accepts TellInput.obj = false :=
  ⟨rfl, rfl, rfl, rfl, rfl, rfl, rfl⟩

/-- C2: the specific-error branch of `tell` does not lazily create settings
for a previously-unseen key: reading `.watch` off the missing map entry
throws a TypeError (while the reserved keys work, and `_blank_settings` —
used only by explicit configuration — does default to watch on, all windows
disabled, no log). -/
theorem tell_unseen_key_type_error :
    tell_branch initial_settings "RangeError" =
      Except.error "TypeError: cannot read property watch of undefined" ∧
    tell_branch initial_settings "_all" = Except.ok true ∧
    blank_settings.watch = true ∧
    blank_settings.minute.enabled = false ∧
    blank_settings.hour.enabled = false ∧
    blank_settings.day.enabled = false ∧
    blank_settings.log = none :=
  ⟨rfl, rfl, rfl, rfl, rfl, rfl, rfl⟩

/-- C3 (amended): for an enabled window with a configured cooldown and a
recorded (truthy) last_alert, the threshold check at `current_time` is
skipped iff `current_time - last_alert <= cooldown * 60000` — the suppression
still holds when `current_time - last_alert` equals the cooldown exactly, and
the window becomes eligible again only once
`current_time - last_alert > cooldown * 60000`. -/
theorem cooldown_skip_boundary (c : WindowConfig) (window ct la cd : Int)
    (saved queued : List Int) (hen : c.enabled = true)
    (hla : c.last_alert = some la) (hla0 : la ≠ 0) (hcd : c.cooldown = some cd) :
    (ct - la ≤ cd * 60000 → check_window c window ct saved queued = (false, c)) ∧
    (cd * 60000 < ct - la →
      check_window c window ct saved queued =
        threshold_step c window ct saved queued) := by
  have hact : cooldown_active c ct = decide (ct - cd * 60000 ≤ la) := by
    simp [cooldown_active, hla, hcd, hla0]
  constructor
  · intro h
    have hcool : cooldown_active c ct = true := by
      rw [hact]
      simpa using by omega
    simp [check_window, hen, hcool]
  · intro h
    have hcool : cooldown_active c ct = false := by
      rw [hact]
      simpa using by omega
    simp [check_window, hen, hcool]

/-- C3 counterexample: with cooldown 1 minute and last_alert 1000, at
current_time 61000 we have `current_time - last_alert = 60000 = cooldown_ms`,
so the claim ("skipped iff strictly less; eligible once ≥") says the window
fires — but the code skips, even though the threshold check alone would have
fired. -/
theorem cooldown_exact_boundary_counterexample :
    (61000 : Int) - 1000 = 1 * 60000 ∧
    check_window boundary_config 60000 61000 [60999] [61000] =
      (false, boundary_config) ∧
    threshold_step boundary_config 60000 61000 [60999] [61000] =
      (true, { boundary_config with last_alert := some 61000 }) := by
  decide

/-- C3 witness: the amended theorem applied at the exact boundary input. -/
theorem cooldown_skip_boundary_witness :
    check_window boundary_config 60000 61000 [60999] [61000] =
      (false, boundary_config) :=
  (cooldown_skip_boundary boundary_config 60000 61000 1000 1 [60999] [61000]
    rfl rfl (by decide) rfl).1 (by decide)

/-- C5: `_find_range` computes the upper index from `range.from`, not
`range.to`.  On history `[10, 20, 30]` with `{from: 15, to: 25}` the code
yields to-index 1 (the lower bound of 15) where the claim requires 2 (the
lower bound of 25); the no-upper-bound branch does return `length - 1`. -/
theorem find_range_upper_bound_uses_from :
    find_range [10, 20, 30] [] 15 (some 25) = (some 1, some 1) ∧
    find_bound 25 [10, 20, 30] = some 2 ∧
    (find_range [10, 20, 30] [] 15 (some 25)).2 ≠ some 2 ∧
    (∀ saved queued : List Int, ∀ rfrom : Int,
      (find_range saved queued rfrom none).2 =
        some (((saved ++ queued).length : Int) - 1)) := by
  refine ⟨by decide, by decide, by decide, ?_⟩
  intro saved queued rfrom
  rfl

/-- C6: `_flush_queued` either (write succeeded) moves the whole queue into
the committed segment and empties it, or (write failed) leaves both segments
untouched; either way the logical history `committed ++ queued` is preserved
exactly, so `_find_range` — hence any count — is unchanged by a flush. -/
theorem flush_preserves_history (s : EventSettings) (committed queued : List Int)
    (buffer_full : Bool) :
    (flush_queued_one s committed queued buffer_full).2.1 ++
      (flush_queued_one s committed queued buffer_full).2.2 = committed ++ queued ∧
    ((write s queued buffer_full).1 = true →
      (flush_queued_one s committed queued buffer_full).2 = (committed ++ queued, [])) ∧
    ((write s queued buffer_full).1 = false →
      (flush_queued_one s committed queued buffer_full).2 = (committed, queued)) ∧
    (∀ (rfrom : Int) (rto : Option Int),
      find_range (flush_queued_one s committed queued buffer_full).2.1
          (flush_queued_one s committed queued buffer_full).2.2 rfrom rto =
        find_range committed queued rfrom rto) := by
  rcases hw : write s queued buffer_full with ⟨ok, s', payload⟩
  cases ok
  · refine ⟨?_, ?_, ?_, ?_⟩
    · simp [flush_queued_one, hw]
    · intro h
      simp at h
    · intro _
      simp [flush_queued_one, hw]
    · intro rfrom rto
      simp [flush_queued_one, hw]
  · refine ⟨?_, ?_, ?_, ?_⟩
    · simp [flush_queued_one, hw]
    · intro _
      simp [flush_queued_one, hw]
    · intro h
      simp at h
    · intro rfrom rto
      have hfl : (flush_queued_one s committed queued buffer_full).2.1 ++
          (flush_queued_one s committed queued buffer_full).2.2 =
          committed ++ queued := by
        simp [flush_queued_one, hw]
      exact find_range_eq_of_append_eq hfl rfrom rto

/-- C6 witness: a successful flush (no log configured, so the write is a
no-op success) moves the queue into the committed segment. -/
theorem flush_preserves_history_witness :
    (flush_queued_one blank_settings [1] [2] false).2 = ([1, 2], []) :=
  (flush_preserves_history blank_settings [1] [2] false).2.1 (by decide)

/-- C7: recovery keeps exactly the parsed timestamps that are at least
`one_day_ago` (everything strictly older is discarded, unparseable lines
never survive) and places the survivors ahead of the timestamps queued since
process start. -/
theorem recovery_filters_and_prepends (parsed : List (Option Int))
    (one_day_ago : Int) (queued : List Int) :
    load_log_queued parsed one_day_ago queued =
      recovered_timestamps parsed one_day_ago ++ queued ∧
    (∀ t ∈ recovered_timestamps parsed one_day_ago,
      one_day_ago ≤ t ∧ some t ∈ parsed) ∧
    (∀ t : Int, some t ∈ parsed → one_day_ago ≤ t →
      t ∈ recovered_timestamps parsed one_day_ago) := by
  refine ⟨rfl, ?_, ?_⟩
  · intro t ht
    rw [recovered_timestamps, List.mem_filterMap] at ht
    obtain ⟨a, ha, hfa⟩ := ht
    cases a with
    | none => simp at hfa
    | some v =>
      dsimp only at hfa
      by_cases hle : one_day_ago ≤ v
      · rw [if_pos hle] at hfa
        injection hfa with hfa
        subst hfa
        exact ⟨hle, ha⟩
      · rw [if_neg hle] at hfa
        simp at hfa
  · intro t ht hle
    rw [recovered_timestamps, List.mem_filterMap]
    exact ⟨some t, ht, by simp [hle]⟩

/-- C7 witness: value 10 (fresh) survives recovery over the parsed log
`[10, NaN, 3]` with cutoff 5, while 3 and the unparseable line do not block
it. -/
theorem recovery_filters_and_prepends_witness :
    (10 : Int) ∈ recovered_timestamps [some 10, none, some 3] 5 :=
  (recovery_filters_and_prepends [some 10, none, some 3] 5 []).2.2 10
    (by decide) (by decide)

/-- C8: a second call to `start` does not report an `AlerterError` through
the callback — evaluating `new AlerterErrror(...)` (unbound identifier)
throws a ReferenceError before the callback runs; no recovery work happens
and `_started` stays true.  A first call proceeds and flips `_started`. -/
theorem second_start_reference_error :
    start_entry true = (StartOutcome.threwReference "AlerterErrror", true) ∧
    (∀ m : String, (start_entry true).1 ≠ StartOutcome.callbackError m) ∧
    start_entry false = (StartOutcome.proceeded, true) := by
  refine ⟨rfl, ?_, rfl⟩
  intro m
  simp [start_entry]

/-- C9: `_write` is a successful no-op without a configured log path; it
fails fast when draining or the stream is not open; otherwise it writes the
newline-joined entries, reports success, and records backpressure exactly
when the stream's buffer filled. -/
theorem write_contract (s : EventSettings) (data : List Int) (buffer_full : Bool) :
    (jsTruthyLog s.log = false → write s data buffer_full = (true, s, none)) ∧
    (jsTruthyLog s.log = true → s.draining = true ∨ s.stream_open = false →
      write s data buffer_full = (false, s, none)) ∧
    (jsTruthyLog s.log = true → s.draining = false → s.stream_open = true →
      write s data buffer_full =
        (true, (if buffer_full then { s with draining := true } else s),
          some (String.intercalate "\n" (data.map toString) ++ "\n"))) := by
  refine ⟨?_, ?_, ?_⟩
  · intro h
    simp [write, h]
  · intro h hor
    rcases hor with h2 | h2 <;> simp [write, h, h2]
  · intro h h2 h3
    simp [write, h, h2, h3]

/-- C9 witness: a configured, open, non-draining stream accepts the write and
stays non-draining when the buffer did not fill. -/
theorem write_contract_witness :
    write { blank_settings with log := some "a.log", stream_open := true } [5, 6] false =
      (true, { blank_settings with log := some "a.log", stream_open := true },
        some (String.intercalate "\n" ([5, 6].map toString) ++ "\n")) := by
  have h := (write_contract
    { blank_settings with log := some "a.log", stream_open := true } [5, 6] false).2.2
    (by decide) rfl rfl
  simpa using h

/-- C10: an enabled window whose threshold was never configured
(`threshold = undefined`) can never fire: `count >= undefined` is false in
JS, so the check leaves the window untouched whatever the occurrence
history. -/
theorem unset_threshold_never_fires (c : WindowConfig) (window ct : Int)
    (saved queued : List Int) (hen : c.enabled = true) (hth : c.threshold = none) :
    check_window c window ct saved queued = (false, c) := by
  by_cases hcool : cooldown_active c ct
  · simp [check_window, hen, hcool]
  · simp [check_window, hen, hcool, threshold_step, hth, jsGE_none_right]

/-- C10 witness: an enabled minute window with no threshold and plenty of
in-window occurrences does not fire. -/
theorem unset_threshold_never_fires_witness :
    check_window { enabled := true, threshold := none, cooldown := none, last_alert := none }
        60000 100000 [99999] [100000] =
      (false, { enabled := true, threshold := none, cooldown := none, last_alert := none }) :=
  unset_threshold_never_fires _ 60000 100000 [99999] [100000] rfl rfl

end ErrorAlerts
